import Mathlib

/-!
Shallow embedding of the quiz-session state machine of the
Frontend Quiz app (React/TypeScript) and of its scoring engine,
together with proofs about the behaviour of the embedded code.

The embedded functions are transcriptions of:
  * `App.tsx`: `handleQuizSelect`, `handleAnswerSelect`, `handleNext`,
    `handlePrevious`, `handleBackToMenu`, `toggleTheme`, and the
    deferred `setTimeout` continuation scheduled by `handleNext`;
  * `ResultsScreen.tsx`: `calculateScore` and the `percentage` value;
  * `useLocalStorage.ts`: the lazy initializer of the stored value.
-/

namespace QuizApp

/-- Modelled from the spec: the question record of the quiz catalog
(`src/types.ts` is not part of the provided sources).  A question has
the question text, an ordered list of option strings, and the correct
answer string (`question`, `options`, `answer` in the catalog format). -/
structure Question where
  question : String
  options : List String
  answer : String
deriving DecidableEq, Repr

/-- Modelled from the spec: a quiz has a title, an icon reference
(irrelevant to the state machine, omitted) and an ordered list of
questions. -/
structure Quiz where
  title : String
  questions : List Question
deriving DecidableEq, Repr

/-- Modelled from the spec: the screen state type
`"menu" | "question" | "result" | "completed"`; the spec notes that the
fourth value `completed` exists in the type domain but is never assigned
by any transition. -/
inductive QuizState where
  | menu
  | question
  | result
  | completed
deriving DecidableEq, Repr

/-- The React state of the `App` component: one field per
`useLocalStorage` state hook.  `currentQuestionIndex` is a JS number that
the program only ever sets to `0`, to a previous value plus one, or to a
positive value minus one, so it is embedded as `Nat`. -/
structure AppState where
  currentState : QuizState
  selectedQuiz : Option Quiz
  isDark : Bool
  currentQuestionIndex : Nat
  selectedAnswers : List String
  userAnswers : List String
  showFeedback : Bool
deriving DecidableEq, Repr

/-- The whole system: the component state plus the queue of pending
`setTimeout` continuations scheduled by `handleNext`.  Each pending entry
records the `currentQuestionIndex` value captured by the closure at
schedule time.  Timers all have the same 1.5 s delay, so they elapse in
FIFO order. -/
structure SysState where
  app : AppState
  pending : List Nat
deriving DecidableEq, Repr

/-- The state of the app when every `useLocalStorage` hook falls back to
its default: `"menu"`, no quiz, dark theme, index 0, empty answer lists,
no feedback. -/
def initSys : SysState :=
  { app :=
      { currentState := QuizState.menu
        selectedQuiz := none
        isDark := true
        currentQuestionIndex := 0
        selectedAnswers := []
        userAnswers := []
        showFeedback := false }
    pending := [] }

/-- `(selectedQuiz?.questions.length || 0)` in `handleNext`'s guard:
the question count of the selected quiz, `0` when no quiz is selected
(`||` also maps a zero length to `0`, which is the identity). -/
def quizLength (a : AppState) : Int :=
  match a.selectedQuiz with
  | none => 0
  | some q => (q.questions.length : Int)

/-- `handleQuizSelect` (App.tsx): select a quiz, reset index to 0, make
a fresh answer array `new Array(quiz.questions.length).fill("")`, clear
the final answers, hide feedback, go to the question screen. -/
def handleQuizSelect (quiz : Quiz) (s : SysState) : SysState :=
  { s with app :=
      { s.app with
        selectedQuiz := some quiz
        currentQuestionIndex := 0
        selectedAnswers := List.replicate quiz.questions.length ""
        userAnswers := []
        showFeedback := false
        currentState := QuizState.question } }

/-- JS array element assignment `arr[i] = a` on a copy of `arr`: in
bounds it overwrites; past the end it lengthens the array (the holes
created by JS are modelled as the empty-string "unanswered" sentinel). -/
def jsSetIndex (l : List String) (i : Nat) (a : String) : List String :=
  if i < l.length then l.set i a
  else l ++ List.replicate (i - l.length) "" ++ [a]

/-- `handleAnswerSelect` (App.tsx): write the chosen answer into the
draft answer array at the current question index. -/
def handleAnswerSelect (answer : String) (s : SysState) : SysState :=
  { s with app :=
      { s.app with
        selectedAnswers :=
          jsSetIndex s.app.selectedAnswers s.app.currentQuestionIndex answer } }

/-- `handleNext` (App.tsx).  On a non-final question it sets
`showFeedback` and schedules the 1.5 s `setTimeout` continuation, which
captures the current `currentQuestionIndex`; on the final question (or
when the guard fails because no quiz is selected) it snapshots
`[...selectedAnswers]` into `userAnswers` and moves to the result
screen. -/
def handleNext (s : SysState) : SysState :=
  if (s.app.currentQuestionIndex : Int) < quizLength s.app - 1 then
    { app := { s.app with showFeedback := true }
      pending := s.pending ++ [s.app.currentQuestionIndex] }
  else
    { s with app :=
        { s.app with
          userAnswers := s.app.selectedAnswers
          currentState := QuizState.result } }

/-- The elapsing of the oldest pending `setTimeout` continuation
scheduled by `handleNext`: it runs
`setCurrentQuestionIndex(captured + 1); setShowFeedback(false)`
unconditionally, where `captured` is the index value the closure
captured at schedule time.  Nothing in the program ever calls
`clearTimeout`. -/
def fireTimer (s : SysState) : SysState :=
  match s.pending with
  | [] => s
  | captured :: rest =>
      { app := { s.app with
          currentQuestionIndex := captured + 1
          showFeedback := false }
        pending := rest }

/-- `handlePrevious` (App.tsx): step back one question, only when not on
the first question. -/
def handlePrevious (s : SysState) : SysState :=
  if s.app.currentQuestionIndex > 0 then
    { s with app :=
        { s.app with currentQuestionIndex := s.app.currentQuestionIndex - 1 } }
  else s

/-- `handleBackToMenu` (App.tsx): full reset of the quiz session, back
to the menu screen.  The theme flag is not touched. -/
def handleBackToMenu (s : SysState) : SysState :=
  { s with app :=
      { s.app with
        currentState := QuizState.menu
        selectedQuiz := none
        currentQuestionIndex := 0
        selectedAnswers := []
        userAnswers := []
        showFeedback := false } }

/-- `toggleTheme` (App.tsx): flip the dark-theme flag. -/
def toggleTheme (s : SysState) : SysState :=
  { s with app := { s.app with isDark := !s.app.isDark } }

/-! ## Scoring engine (`ResultsScreen.tsx`) -/

/-- The body of the `quiz.questions.forEach((question, index) => ...)`
loop of `calculateScore`: walk the questions with their index, counting
the positions where `userAnswers[index] === question.answer`.  A JS
index read past the end yields `undefined`, which is `===`-unequal to
every string; this is the `none` case of `userAnswers[i]?`. -/
def scoreLoop : List Question → Nat → List String → Nat
  | [], _, _ => 0
  | q :: rest, i, userAnswers =>
      (if userAnswers[i]? = some q.answer then 1 else 0) +
        scoreLoop rest (i + 1) userAnswers

/-- `calculateScore` (ResultsScreen.tsx): returns `0` when
`userAnswers.length === 0` (the `!quiz` half of that guard cannot fire:
`quiz` is a required non-null prop), otherwise counts the questions
answered correctly.  -/
def calculateScore (quiz : Quiz) (userAnswers : List String) : Nat :=
  if userAnswers = [] then 0
  else scoreLoop quiz.questions 0 userAnswers

/-- JS `Math.round`: the integer closest to the exact value of the
double operand, ties toward positive infinity (half-up).  The operand is
a double, so this is exact — no further floating-point error. -/
def jsRound (x : ℚ) : ℤ := ⌊x + 1 / 2⌋

/-- Rounding a rational to the nearest integer with ties to even: the
rounding applied to the 53-bit significand by IEEE-754 binary64
arithmetic in its default rounding mode. -/
def roundNearestEven (x : ℚ) : ℤ :=
  if x - ⌊x⌋ < 1 / 2 then ⌊x⌋
  else if 1 / 2 < x - ⌊x⌋ then ⌊x⌋ + 1
  else if ⌊x⌋ % 2 = 0 then ⌊x⌋ else ⌊x⌋ + 1

/-- Correct rounding of a nonnegative rational to an IEEE-754 binary64
value (round to nearest, ties to even): the significand
`x / 2 ^ (⌊log₂ x⌋ - 52)` lies in `[2^52, 2^53)` and is rounded to an
integer.  This models the doubles produced by the scoring arithmetic,
whose values are normal: `score / total` lies in `[2^-32, 1]` for every
JS-representable answer array (length below `2^32`), far from the
subnormal and overflow ranges, which are therefore not modelled. -/
def fl64 (x : ℚ) : ℚ :=
  if x = 0 then 0
  else
    (roundNearestEven (x / 2 ^ (Int.log 2 x - 52)) : ℚ) *
      2 ^ (Int.log 2 x - 52)

/-- The `percentage` value of `ResultsScreen.tsx`:
`Math.round((score / totalQuestions) * 100)` evaluated in IEEE-754
binary64 arithmetic — the division and the multiplication by 100 are
each correctly rounded doubles (`fl64`), and `Math.round` acts on the
resulting double.  When `totalQuestions === 0` the JS division `0 / 0`
produces `NaN` and `Math.round(NaN)` is `NaN`; `NaN` is embedded as
`none`. -/
def resultPercentage (quiz : Quiz) (userAnswers : List String) : Option ℤ :=
  if quiz.questions.length = 0 then none
  else
    some (jsRound (fl64 (fl64 ((calculateScore quiz userAnswers : ℚ) /
      (quiz.questions.length : ℚ)) * 100)))

/-- The count demanded by the spec's scoring sentence, written from the
spec's words: the number of indices `i` in range of `quiz.questions`
where `answers[i]` equals `quiz.questions[i].correctAnswer` exactly. -/
def specCorrectCount (quiz : Quiz) (answers : List String) : Nat :=
  (List.range quiz.questions.length).countP fun i =>
    decide (answers[i]? = (quiz.questions[i]?).map Question.answer)

/-! ## Durable store read (`useLocalStorage.ts`) -/

/-- The lazy initializer of `useLocalStorage`:
`const item = window.localStorage.getItem(key)` is `item : Option String`
(`null` when the key is absent); `JSON.parse` is an abstract fallible
parser whose thrown exception is the `none` case; the code returns
`item ? JSON.parse(item) : initialValue` inside a try/catch falling back
to `initialValue`.  JS truthiness makes the empty string take the
default branch as well.  The return type `T` (not an exception monad)
records that no error propagates to the caller. -/
def useLocalStorageInit {T : Type} (item : Option String)
    (parse : String → Option T) (initialValue : T) : T :=
  match item with
  | none => initialValue
  | some raw =>
      if raw = "" then initialValue
      else
        match parse raw with
        | none => initialValue
        | some v => v

/-! ## Reachability -/

/-- The states reachable from the default initial state through the
transition operations of the session state machine, including the
elapsing of the deferred feedback continuation (`fireTimer`).  Following
the catalog invariant, `selectQuiz` is only invoked with a quiz whose
question list is non-empty. -/
inductive Reachable : SysState → Prop where
  | init : Reachable initSys
  | selectQuiz (q : Quiz) (hq : q.questions ≠ []) {s : SysState} :
      Reachable s → Reachable (handleQuizSelect q s)
  | selectAnswer (a : String) {s : SysState} :
      Reachable s → Reachable (handleAnswerSelect a s)
  | advance {s : SysState} : Reachable s → Reachable (handleNext s)
  | retreat {s : SysState} : Reachable s → Reachable (handlePrevious s)
  | backToMenu {s : SysState} : Reachable s → Reachable (handleBackToMenu s)
  | toggle {s : SysState} : Reachable s → Reachable (toggleTheme s)
  | fire {s : SysState} : Reachable s → Reachable (fireTimer s)

/-- The states reachable through the synchronous transitions alone: as
`Reachable`, but without the elapsing of the deferred continuation. -/
inductive ReachableSync : SysState → Prop where
  | init : ReachableSync initSys
  | selectQuiz (q : Quiz) (hq : q.questions ≠ []) {s : SysState} :
      ReachableSync s → ReachableSync (handleQuizSelect q s)
  | selectAnswer (a : String) {s : SysState} :
      ReachableSync s → ReachableSync (handleAnswerSelect a s)
  | advance {s : SysState} : ReachableSync s → ReachableSync (handleNext s)
  | retreat {s : SysState} : ReachableSync s → ReachableSync (handlePrevious s)
  | backToMenu {s : SysState} :
      ReachableSync s → ReachableSync (handleBackToMenu s)
  | toggle {s : SysState} : ReachableSync s → ReachableSync (toggleTheme s)

/-- The screen/index invariant of the spec's data model: on the question
screen a quiz is selected and the current index is a valid (0-based)
position into its question list. -/
def stateInvariant (a : AppState) : Prop :=
  a.currentState = QuizState.question →
    ∃ q, a.selectedQuiz = some q ∧ a.currentQuestionIndex < q.questions.length

/-! ## Concrete quizzes used for witnesses and counterexamples -/

/-- A one-question quiz (the catalog invariant holds: the correct answer
is among the options). -/
def quizA : Quiz :=
  { title := "HTML"
    questions :=
      [{ question := "Q1", options := ["A", "B", "C", "D"], answer := "B" }] }

/-- A two-question quiz satisfying the catalog invariant. -/
def quizB : Quiz :=
  { title := "CSS"
    questions :=
      [{ question := "Q1", options := ["A", "B", "C", "D"], answer := "B" },
       { question := "Q2", options := ["A", "B", "C", "D"], answer := "C" }] }

/-- The state reached by: select the two-question quiz, advance on its
first question (scheduling the feedback continuation), return to the
menu, select the one-question quiz, and let the pending continuation
elapse. -/
def staleTimerState : SysState :=
  fireTimer (handleQuizSelect quizA
    (handleBackToMenu (handleNext (handleQuizSelect quizB initSys))))

/-- A quiz with an empty question list (outside the catalog invariant;
used to exercise the `total == 0` branch of the scoring engine). -/
def emptyQuiz : Quiz := { title := "Empty", questions := [] }

/-- A forty-question quiz (every correct answer is "B"); 40 questions
make the float64 percentage of 23 correct answers observably differ from
exact rounding. -/
def quiz40 : Quiz :=
  { title := "JavaScript"
    questions :=
      List.replicate 40
        { question := "Q", options := ["A", "B", "C", "D"], answer := "B" } }

/-- An answer sheet for the forty-question quiz with exactly 23 correct
answers. -/
def answers40 : List String :=
  List.replicate 23 "B" ++ List.replicate 17 "A"

/-- A question-screen state sitting on the second question of the
two-question quiz, with the first question answered. -/
def secondQuestionState : SysState :=
  { app :=
      { currentState := QuizState.question
        selectedQuiz := some quizB
        isDark := true
        currentQuestionIndex := 1
        selectedAnswers := ["B", ""]
        userAnswers := []
        showFeedback := false }
    pending := [] }

/-! ## Helper lemmas for the scoring engine -/

theorem scoreLoop_nil_answers : ∀ (l : List Question) (i : Nat),
    scoreLoop l i [] = 0
  | [], _ => rfl
  | q :: rest, i => by
      rw [scoreLoop, scoreLoop_nil_answers rest (i + 1)]
      simp

theorem scoreLoop_eq_countP (userAnswers : List String) :
    ∀ (l : List Question) (i : Nat),
      scoreLoop l i userAnswers =
        (List.range l.length).countP fun j =>
          decide (userAnswers[i + j]? = (l[j]?).map Question.answer)
  | [], i => by simp [scoreLoop]
  | q :: rest, i => by
      have hfun :
          ((fun j =>
              decide (userAnswers[i + j]? =
                ((q :: rest)[j]?).map Question.answer)) ∘ Nat.succ) =
            fun j =>
              decide (userAnswers[(i + 1) + j]? =
                (rest[j]?).map Question.answer) := by
        funext j
        have hidx : i + (j + 1) = (i + 1) + j := by omega
        simp [Function.comp, Nat.succ_eq_add_one, hidx]
      rw [scoreLoop, scoreLoop_eq_countP userAnswers rest (i + 1),
        List.length_cons, List.range_succ_eq_map, List.countP_cons,
        List.countP_map, hfun]
      simp [Nat.add_comm]

theorem log2_eq_of_bounds {r : ℚ} {e : ℤ} (hr : 0 < r)
    (hlow : (2 : ℚ) ^ e ≤ r) (hhigh : r < (2 : ℚ) ^ (e + 1)) :
    Int.log 2 r = e := by
  have hb : 1 < (2 : ℕ) := by norm_num
  have h1 : e ≤ Int.log 2 r := by
    refine (Int.zpow_le_iff_le_log hb hr).mp ?_
    exact_mod_cast hlow
  have h2 : Int.log 2 r < e + 1 := by
    refine (Int.lt_zpow_iff_log_lt hb hr).mp ?_
    exact_mod_cast hhigh
  omega

theorem roundNearestEven_eval_lt {x : ℚ} {f : ℤ} (hf : ⌊x⌋ = f)
    (hr : x - f < 1 / 2) : roundNearestEven x = f := by
  rw [roundNearestEven, hf, if_pos hr]

theorem fl64_eval {x : ℚ} {e m : ℤ} (hx : 0 < x)
    (hlow : (2 : ℚ) ^ e ≤ x) (hhigh : x < (2 : ℚ) ^ (e + 1))
    (hm : roundNearestEven (x / 2 ^ (e - 52)) = m) :
    fl64 x = m * 2 ^ (e - 52) := by
  rw [fl64, if_neg (ne_of_gt hx), log2_eq_of_bounds hx hlow hhigh, hm]

theorem calculateScore_eq_specCount (quiz : Quiz) (answers : List String) :
    calculateScore quiz answers = specCorrectCount quiz answers := by
  have hmain :
      scoreLoop quiz.questions 0 answers = specCorrectCount quiz answers := by
    rw [scoreLoop_eq_countP answers quiz.questions 0, specCorrectCount]
    simp
  rw [calculateScore]
  by_cases h : answers = []
  · rw [if_pos h, ← hmain, h, scoreLoop_nil_answers]
  · rw [if_neg h, hmain]

/-! ## Scoring claims -/

/-- Claim C3 counterexample: on the forty-question quiz with 23 correct
answers the program's percentage is 57 — the double evaluation of
`(23/40)*100` is `57.49999999999999`, below the exact 57.5 — while
exact round-half-up of `correct/total*100` gives 58, so the claimed
percentage equation fails. -/
theorem c3_counterexample :
    calculateScore quiz40 answers40 = 23 ∧
    resultPercentage quiz40 answers40 = some 57 ∧
    jsRound ((calculateScore quiz40 answers40 : ℚ) /
      (quiz40.questions.length : ℚ) * 100) = 58 := by
  have hs : calculateScore quiz40 answers40 = 23 := by decide
  have hlen : quiz40.questions.length = 40 := by decide
  have hA : fl64 ((23 : ℚ) / 40) = 5179139571476070 * 2 ^ ((-53 : ℤ)) := by
    have h := fl64_eval (x := (23 : ℚ) / 40) (e := -1) (m := 5179139571476070)
      (by norm_num) (by norm_num) (by norm_num) ?hm
    · exact h
    case hm =>
      refine roundNearestEven_eval_lt ?_ ?_
      · norm_num
      · norm_num
  have hB : fl64 ((5179139571476070 * 2 ^ ((-53 : ℤ)) : ℚ) * 100) =
      8092405580431359 * 2 ^ ((-47 : ℤ)) := by
    have h := fl64_eval
      (x := (5179139571476070 * 2 ^ ((-53 : ℤ)) : ℚ) * 100)
      (e := 5) (m := 8092405580431359)
      (by norm_num) (by norm_num) (by norm_num) ?hm
    · exact h
    case hm =>
      refine roundNearestEven_eval_lt ?_ ?_
      · norm_num
      · norm_num
  refine ⟨hs, ?_, ?_⟩
  · rw [resultPercentage, if_neg (by rw [hlen]; norm_num), hs, hlen]
    push_cast
    rw [hA, hB]
    norm_num [jsRound]
  · rw [hs, hlen]
    push_cast
    norm_num [jsRound]

/-- Claim C3, as amended: for every quiz and every answer list, the
scoring computation returns `correct` equal to the number of indices `i`
in range of `quiz.questions` where `answers[i]` is exactly string-equal
to `quiz.questions[i].correctAnswer`; whenever there is at least one
question, the on-screen percentage is `Math.round` applied to the
IEEE-754 binary64 evaluation of `(correct / total) * 100` (the division
and the multiplication each correctly rounded), which can differ from
half-up rounding of the exact rational value. -/
theorem c3_amended_scoring (quiz : Quiz) (answers : List String) :
    calculateScore quiz answers = specCorrectCount quiz answers ∧
    (quiz.questions.length ≠ 0 →
      resultPercentage quiz answers =
        some (jsRound (fl64 (fl64 ((specCorrectCount quiz answers : ℚ) /
          (quiz.questions.length : ℚ)) * 100)))) := by
  refine ⟨calculateScore_eq_specCount quiz answers, fun h => ?_⟩
  rw [resultPercentage, if_neg h, calculateScore_eq_specCount]

/-- Claim C3 witness: the amended theorem applied to the two-question
quiz with one correct answer. -/
theorem c3_amended_scoring_witness :
    calculateScore quizB ["B", "A"] = specCorrectCount quizB ["B", "A"] ∧
    resultPercentage quizB ["B", "A"] =
      some (jsRound (fl64 (fl64 ((specCorrectCount quizB ["B", "A"] : ℚ) /
        (quizB.questions.length : ℚ)) * 100))) :=
  ⟨(c3_amended_scoring quizB ["B", "A"]).1,
   (c3_amended_scoring quizB ["B", "A"]).2 (by decide)⟩

/-- Claim C4 counterexample: on a quiz with an empty question list the
percentage computation performs the JS division `0 / 0`, producing
`NaN` (embedded `none`) — not the percentage `0` the claim promises. -/
theorem c4_counterexample :
    resultPercentage emptyQuiz [] = none ∧
    resultPercentage emptyQuiz [] ≠ some 0 := by
  exact ⟨rfl, by decide⟩

/-- Claim C4 as amended: the scoring engine has no division-by-zero
guard: when the question list is empty the percentage computation
divides by zero and yields `NaN` (embedded `none`), not `0`; for
non-empty quizzes the percentage is the half-up rounding
`⌊x + 1/2⌋` of the IEEE-754 binary64 evaluation `x` of
`(correct / total) * 100` — not of the exact rational value — with
`correct` the spec's count of exact string matches. -/
theorem c4_amended_percentage (quiz : Quiz) (answers : List String) :
    (quiz.questions.length = 0 → resultPercentage quiz answers = none) ∧
    (quiz.questions.length ≠ 0 →
      resultPercentage quiz answers =
        some (⌊fl64 (fl64 ((specCorrectCount quiz answers : ℚ) /
          (quiz.questions.length : ℚ)) * 100) + 1 / 2⌋)) := by
  constructor
  · intro h
    rw [resultPercentage, if_pos h]
  · intro h
    rw [resultPercentage, if_neg h, calculateScore_eq_specCount, jsRound]

/-- Claim C4 witness: the amended theorem applied to the empty quiz and
to the one-question quiz. -/
theorem c4_amended_percentage_witness :
    resultPercentage emptyQuiz [] = none ∧
    resultPercentage quizA ["B"] =
      some (⌊fl64 (fl64 ((specCorrectCount quizA ["B"] : ℚ) /
        (quizA.questions.length : ℚ)) * 100) + 1 / 2⌋) :=
  ⟨(c4_amended_percentage emptyQuiz []).1 rfl,
   (c4_amended_percentage quizA ["B"]).2 (by decide)⟩

/-! ## Transition-effect claims -/

/-- Claim C5: on the question screen with an active quiz and the current
index equal to the last question index, `advance()` immediately
snapshots the draft answers into the final answers and moves to the
result screen; no other field changes — in particular the feedback flag
is not set and no feedback continuation is scheduled. -/
theorem c5_advance_last (s : SysState) (q : Quiz)
    (_hscreen : s.app.currentState = QuizState.question)
    (hquiz : s.app.selectedQuiz = some q)
    (hidx : s.app.currentQuestionIndex = q.questions.length - 1) :
    handleNext s =
      { s with app :=
          { s.app with
            userAnswers := s.app.selectedAnswers
            currentState := QuizState.result } } := by
  have hlen : quizLength s.app = (q.questions.length : Int) := by
    simp [quizLength, hquiz]
  have hguard : ¬ ((s.app.currentQuestionIndex : Int) < quizLength s.app - 1) := by
    rw [hidx, hlen]
    omega
  rw [handleNext, if_neg hguard]

/-- Claim C5 witness: the theorem applied to the freshly selected
one-question quiz, whose only question is the last one. -/
theorem c5_advance_last_witness :
    handleNext (handleQuizSelect quizA initSys) =
      { handleQuizSelect quizA initSys with app :=
          { (handleQuizSelect quizA initSys).app with
            userAnswers := (handleQuizSelect quizA initSys).app.selectedAnswers
            currentState := QuizState.result } } :=
  c5_advance_last (handleQuizSelect quizA initSys) quizA rfl rfl (by decide)

/-- Claim C6: selecting a quiz sets the active quiz, resets the index to
0, initializes the draft answers to empty strings (one per question),
clears the final answers, hides feedback, and shows the question
screen. -/
theorem c6_selectQuiz_effects (q : Quiz) (s : SysState) :
    (handleQuizSelect q s).app.selectedQuiz = some q ∧
    (handleQuizSelect q s).app.currentQuestionIndex = 0 ∧
    (handleQuizSelect q s).app.selectedAnswers =
      List.replicate q.questions.length "" ∧
    (handleQuizSelect q s).app.userAnswers = [] ∧
    (handleQuizSelect q s).app.showFeedback = false ∧
    (handleQuizSelect q s).app.currentState = QuizState.question :=
  ⟨rfl, rfl, rfl, rfl, rfl, rfl⟩

/-- Claim C7: returning to the menu fully resets the quiz session
(menu screen, no quiz, index 0, empty draft and final answers, feedback
hidden) but leaves the theme flag untouched; in particular flipping the
theme and then returning to the menu leaves the theme flipped. -/
theorem c7_backToMenu_effects (s : SysState) :
    (handleBackToMenu s).app.currentState = QuizState.menu ∧
    (handleBackToMenu s).app.selectedQuiz = none ∧
    (handleBackToMenu s).app.currentQuestionIndex = 0 ∧
    (handleBackToMenu s).app.selectedAnswers = [] ∧
    (handleBackToMenu s).app.userAnswers = [] ∧
    (handleBackToMenu s).app.showFeedback = false ∧
    (handleBackToMenu s).app.isDark = s.app.isDark ∧
    (handleBackToMenu (toggleTheme s)).app.isDark = !s.app.isDark :=
  ⟨rfl, rfl, rfl, rfl, rfl, rfl, rfl, rfl⟩

/-- Claim C8: on the question screen, `retreat()` decrements the index
by one and changes nothing else when the index is positive, and leaves
the whole state unchanged when the index is 0. -/
theorem c8_retreat_effects (s : SysState)
    (_hscreen : s.app.currentState = QuizState.question) :
    (0 < s.app.currentQuestionIndex →
      handlePrevious s =
        { s with app :=
            { s.app with
              currentQuestionIndex := s.app.currentQuestionIndex - 1 } }) ∧
    (s.app.currentQuestionIndex = 0 → handlePrevious s = s) := by
  constructor
  · intro h
    rw [handlePrevious, if_pos h]
  · intro h
    rw [handlePrevious, if_neg]
    omega

/-- Claim C8 witness: the theorem applied to a state on the second
question (the index drops to the first question) and to a freshly
selected quiz (retreat on the first question is a no-op). -/
theorem c8_retreat_effects_witness :
    handlePrevious secondQuestionState =
      { secondQuestionState with app :=
          { secondQuestionState.app with
            currentQuestionIndex :=
              secondQuestionState.app.currentQuestionIndex - 1 } } ∧
    handlePrevious (handleQuizSelect quizA initSys) =
      handleQuizSelect quizA initSys :=
  ⟨(c8_retreat_effects secondQuestionState rfl).1 (by decide),
   (c8_retreat_effects (handleQuizSelect quizA initSys) rfl).2 rfl⟩

/-- Claim C10: with no quiz selected, `advance()` is not rejected: the
guard bound `(selectedQuiz?.questions.length || 0) - 1` evaluates to
`-1`, the comparison fails, and the last-question branch runs — the
draft answers are snapshotted into the final answers and the screen
becomes the result screen, even though no quiz run is in progress. -/
theorem c10_advance_without_quiz (s : SysState)
    (h : s.app.selectedQuiz = none) :
    quizLength s.app - 1 = -1 ∧
    handleNext s =
      { s with app :=
          { s.app with
            userAnswers := s.app.selectedAnswers
            currentState := QuizState.result } } := by
  have hlen : quizLength s.app = 0 := by rw [quizLength, h]
  refine ⟨by rw [hlen]; decide, ?_⟩
  have hguard : ¬ ((s.app.currentQuestionIndex : Int) < quizLength s.app - 1) := by
    rw [hlen]
    omega
  rw [handleNext, if_neg hguard]

/-- Claim C10 witness: the theorem applied to the initial state, where
no quiz is selected. -/
theorem c10_advance_without_quiz_witness :
    quizLength initSys.app - 1 = -1 ∧
    handleNext initSys =
      { initSys with app :=
          { initSys.app with
            userAnswers := initSys.app.selectedAnswers
            currentState := QuizState.result } } :=
  c10_advance_without_quiz initSys rfl

/-- Claim C2: when `advance()` runs on a non-final question it appends a
continuation capturing the current index to the pending-timer queue;
neither `returnToMenu()` nor a fresh `selectQuiz()` removes it (no
transition cancels, re-targets, or invalidates it); and when the timer
elapses in the post-reset or freshly-started session, the continuation
still sets the index to the captured value plus one and clears the
feedback flag. -/
theorem c2_pending_timer_survives (s : SysState) (q : Quiz)
    (hguard : (s.app.currentQuestionIndex : Int) < quizLength s.app - 1) :
    (handleNext s).pending = s.pending ++ [s.app.currentQuestionIndex] ∧
    (handleBackToMenu (handleNext s)).pending =
      s.pending ++ [s.app.currentQuestionIndex] ∧
    (handleQuizSelect q (handleNext s)).pending =
      s.pending ++ [s.app.currentQuestionIndex] ∧
    (s.pending = [] →
      (fireTimer (handleBackToMenu (handleNext s))).app.currentQuestionIndex =
          s.app.currentQuestionIndex + 1 ∧
      (fireTimer (handleBackToMenu (handleNext s))).app.showFeedback = false ∧
      (fireTimer (handleQuizSelect q (handleNext s))).app.currentQuestionIndex =
          s.app.currentQuestionIndex + 1 ∧
      (fireTimer (handleQuizSelect q (handleNext s))).app.showFeedback =
          false) := by
  have hnx : handleNext s =
      { app := { s.app with showFeedback := true }
        pending := s.pending ++ [s.app.currentQuestionIndex] } := by
    rw [handleNext, if_pos hguard]
  refine ⟨by rw [hnx], by rw [hnx]; rfl, by rw [hnx]; rfl, fun hp => ?_⟩
  rw [hnx, hp]
  exact ⟨rfl, rfl, rfl, rfl⟩

/-- Claim C2 witness: the theorem applied to the freshly selected
two-question quiz on its first question, with the one-question quiz as
the quiz selected during the feedback window. -/
theorem c2_pending_timer_survives_witness :
    (handleNext (handleQuizSelect quizB initSys)).pending = [0] ∧
    (fireTimer (handleBackToMenu (handleNext
        (handleQuizSelect quizB initSys)))).app.currentQuestionIndex = 1 ∧
    (fireTimer (handleQuizSelect quizA (handleNext
        (handleQuizSelect quizB initSys)))).app.currentQuestionIndex = 1 ∧
    (fireTimer (handleQuizSelect quizA (handleNext
        (handleQuizSelect quizB initSys)))).app.showFeedback = false :=
  ⟨(c2_pending_timer_survives (handleQuizSelect quizB initSys) quizA
      (by decide)).1,
   ((c2_pending_timer_survives (handleQuizSelect quizB initSys) quizA
      (by decide)).2.2.2 rfl).1,
   ((c2_pending_timer_survives (handleQuizSelect quizB initSys) quizA
      (by decide)).2.2.2 rfl).2.2.1,
   ((c2_pending_timer_survives (handleQuizSelect quizB initSys) quizA
      (by decide)).2.2.2 rfl).2.2.2⟩

/-- Claim C9: the durable-store read used to initialize a session field
returns the caller-supplied default whenever the key is absent or the
stored value fails to parse; its total return type records that the
read/parse error never propagates to the caller. -/
theorem c9_storage_read_defaults {T : Type} (item : Option String)
    (parse : String → Option T) (initialValue : T) :
    (item = none →
      useLocalStorageInit item parse initialValue = initialValue) ∧
    (∀ raw, item = some raw → parse raw = none →
      useLocalStorageInit item parse initialValue = initialValue) := by
  constructor
  · intro h
    rw [h]
    rfl
  · intro raw h hp
    subst h
    by_cases hr : raw = "" <;> simp [useLocalStorageInit, hr, hp]

/-- Claim C9 witness: the theorem applied with a missing key and with a
present key whose stored value fails to parse. -/
theorem c9_storage_read_defaults_witness :
    useLocalStorageInit (T := Nat) none (fun _ => none) 5 = 5 ∧
    useLocalStorageInit (some "bad json") (fun _ => (none : Option Nat)) 7 =
      7 :=
  ⟨(c9_storage_read_defaults none (fun _ => none) 5).1 rfl,
   (c9_storage_read_defaults (some "bad json") (fun _ => none) 7).2
      "bad json" rfl rfl⟩

/-! ## The question-screen invariant -/

theorem stateInvariant_init : stateInvariant initSys.app := by
  intro hc
  exact absurd hc (by decide)

theorem stateInvariant_selectQuiz (q : Quiz) (hq : q.questions ≠ [])
    (s : SysState) : stateInvariant (handleQuizSelect q s).app :=
  fun _ => ⟨q, rfl, List.length_pos.mpr hq⟩

theorem stateInvariant_selectAnswer (a : String) (s : SysState)
    (h : stateInvariant s.app) :
    stateInvariant (handleAnswerSelect a s).app := by
  intro hc
  obtain ⟨q, hq, hlt⟩ := h hc
  exact ⟨q, hq, hlt⟩

theorem stateInvariant_advance (s : SysState) (h : stateInvariant s.app) :
    stateInvariant (handleNext s).app := by
  by_cases hg : (s.app.currentQuestionIndex : Int) < quizLength s.app - 1
  · rw [handleNext, if_pos hg]
    intro hc
    obtain ⟨q, hq, hlt⟩ := h hc
    exact ⟨q, hq, hlt⟩
  · rw [handleNext, if_neg hg]
    intro hc
    exact nomatch hc

theorem stateInvariant_retreat (s : SysState) (h : stateInvariant s.app) :
    stateInvariant (handlePrevious s).app := by
  by_cases hg : s.app.currentQuestionIndex > 0
  · rw [handlePrevious, if_pos hg]
    intro hc
    obtain ⟨q, hq, hlt⟩ := h hc
    exact ⟨q, hq, Nat.lt_of_le_of_lt (Nat.sub_le _ _) hlt⟩
  · rw [handlePrevious, if_neg hg]
    exact h

theorem stateInvariant_backToMenu (s : SysState) :
    stateInvariant (handleBackToMenu s).app := by
  intro hc
  exact nomatch hc

theorem stateInvariant_toggle (s : SysState) (h : stateInvariant s.app) :
    stateInvariant (toggleTheme s).app := by
  intro hc
  obtain ⟨q, hq, hlt⟩ := h hc
  exact ⟨q, hq, hlt⟩

/-- Claim C1 counterexample: a state reachable through the transition
operations — deferred continuation included — that sits on the question
screen with the current index out of range: select the two-question
quiz, advance on its first question, return to the menu during the
feedback window, select the one-question quiz, and let the stale
continuation elapse; the index is then 1 on a quiz with a single
question. -/
theorem c1_counterexample :
    Reachable staleTimerState ∧
    staleTimerState.app.currentState = QuizState.question ∧
    ¬ stateInvariant staleTimerState.app := by
  refine ⟨?_, rfl, ?_⟩
  · exact Reachable.fire
      (Reachable.selectQuiz quizA (by decide)
        (Reachable.backToMenu
          (Reachable.advance
            (Reachable.selectQuiz quizB (by decide) Reachable.init))))
  · intro h
    obtain ⟨q, hq, hlt⟩ := h rfl
    have hqa : staleTimerState.app.selectedQuiz = some quizA := rfl
    rw [hqa] at hq
    cases hq
    have hidx : staleTimerState.app.currentQuestionIndex = 1 := rfl
    rw [hidx] at hlt
    exact absurd hlt (by decide)

/-- Claim C1 as amended: the invariant holds for every state reachable
from the initial state via the synchronous transition operations —
selectQuiz (with a catalog quiz, hence a non-empty question list),
selectAnswer, advance's immediate effects, retreat, returnToMenu and
toggleTheme — with the elapsing of advance's deferred continuation
excluded: on the question screen the active quiz is non-null and the
current index is at least 0 and strictly below the question count. -/
theorem c1_amended_invariant (s : SysState) (h : ReachableSync s) :
    stateInvariant s.app := by
  induction h with
  | init => exact stateInvariant_init
  | selectQuiz q hq hr ih => exact stateInvariant_selectQuiz q hq _
  | selectAnswer a hr ih => exact stateInvariant_selectAnswer a _ ih
  | advance hr ih => exact stateInvariant_advance _ ih
  | retreat hr ih => exact stateInvariant_retreat _ ih
  | backToMenu hr ih => exact stateInvariant_backToMenu _
  | toggle hr ih => exact stateInvariant_toggle _ ih

/-- Claim C1 witness: the amended theorem applied to the reachable state
obtained by selecting the two-question quiz, yielding the invariant
facts there. -/
theorem c1_amended_invariant_witness :
    ∃ q, (handleQuizSelect quizB initSys).app.selectedQuiz = some q ∧
      (handleQuizSelect quizB initSys).app.currentQuestionIndex <
        q.questions.length :=
  c1_amended_invariant (handleQuizSelect quizB initSys)
    (ReachableSync.selectQuiz quizB (by decide) ReachableSync.init) rfl

end QuizApp
